import Mathlib

/-!
Shallow embedding of the listbox selection / keyboard-navigation engine of
this repository: the `ListboxController` reactive controller (single source
file of the core), together with the two leaf collaborators it drives.

Modelling conventions:
* DOM option elements are modelled as records; element identity is modelled
  by the `id` field (every option element carries a DOM id, and the states
  used in the theorems below assume the ids are distinct where that matters,
  mirroring uniqueness of DOM ids).
* The accessibility-state publisher (`InternalsController`) is pure attribute
  storage, inlined as fields `ariaDisabled`, `ariaMultiSelectable`,
  `ariaActivedescendant` of the controller state.
* The roving-tabindex tracker is code of this repository that is not included
  under `src/`; its operations are modelled from the spec (see the
  `Modelled from the spec:` doc comments).
* The filter text is interpolated into a JavaScript regular expression
  (`new RegExp((matchAnywhere ? "" : "^") + filter, caseSensitive ? "" : "i")`).
  We model its semantics on literal (metacharacter-free) filter text:
  an anchored match is a prefix test, an unanchored one a substring test,
  case-folded unless `caseSensitive`.
* Notifications (`change` / `input` events dispatched on the host) are
  modelled as an append-only event log in the state.
* Write-only DOM markers (`hidden-by-filter`, `active-descendant` attributes)
  are not stored: nothing in the controller reads them back.  The one
  observable side effect of the `visibleOptions` getter, setting the
  deferred-focus flag when the DOM-focused option becomes hidden, is kept
  (`visibleOptionsEffect`).
* Members not needed by any theorem below are not embedded: the `value`
  SETTER (external `setValue`), the `options` setter, `hostConnected` /
  `hostDisconnected`, and `focus()`.  The `value` GETTER's observable
  behaviour — its identity under the `oldValue !== this.value` comparisons —
  is embedded as `firstSelectedId` / `jsValueNeq`.
-/

/-- An option element (`ListboxOptionElement` of the source): DOM id, text
content, associated value, and the `selected` / `disabled` / `hidden` flags
read by the controller. -/
structure ListboxOptionElement where
  id : Nat
  textContent : String
  value : Nat
  selected : Bool
  disabled : Bool
  hidden : Bool
deriving DecidableEq

/-- A notification dispatched on the host element. -/
inductive FiredEvent
  | input
  | change
deriving DecidableEq

/-- Keyboard event fields read by the controller handlers.  `target` is the
id of the option element the event targeted (`none` for a null target). -/
structure KeyboardEvent where
  key : String
  ctrlKey : Bool
  altKey : Bool
  metaKey : Bool
  shiftKey : Bool
  target : Option Nat
deriving DecidableEq

/-- Mouse event fields read by the click handler. -/
structure MouseEvent where
  target : Option Nat
  shiftKey : Bool
deriving DecidableEq

/-- State of the `ListboxController`, together with the inlined state of its
two leaf collaborators and the environment facts it reads
(`domFocused` models `document.activeElement`). -/
structure ListboxController where
  filter : String
  showAllOptions : Bool
  caseSensitive : Bool
  disableFilter : Bool
  matchAnywhere : Bool
  shiftStartingItem : Option Nat
  options : List ListboxOptionElement
  updateFocus : Bool
  ariaDisabled : Bool
  ariaMultiSelectable : Bool
  ariaActivedescendant : Option Nat
  tabindexItems : List Nat
  tabindexActive : Option Nat
  domFocused : Option Nat
  events : List FiredEvent
deriving DecidableEq

namespace ListboxController

/-- `disabled` getter: `ariaDisabled === 'true'`. -/
def disabled (s : ListboxController) : Bool := s.ariaDisabled

/-- `multiSelectable` getter: `ariaMultiSelectable === 'true'`. -/
def multiSelectable (s : ListboxController) : Bool := s.ariaMultiSelectable

/-- Modelled from the spec: the roving-focus tracker's first tracked item
(the tracker itself, `RovingTabindexController` of pfe-core, is not under
`src/`). -/
def tabFirstItem (s : ListboxController) : Option Nat := s.tabindexItems.head?

/-- Modelled from the spec: the roving-focus tracker's last tracked item. -/
def tabLastItem (s : ListboxController) : Option Nat := s.tabindexItems.getLast?

/-- Modelled from the spec: `initItems(list)` replaces the tracked items and
resets the active pointer to the first item. -/
def tabInitItems (s : ListboxController) (l : List Nat) : ListboxController :=
  { s with tabindexItems := l, tabindexActive := l.head? }

/-- Modelled from the spec: `updateItems(list)` replaces the tracked items,
keeping the active pointer when it is still present, else the first item. -/
def tabUpdateItems (s : ListboxController) (l : List Nat) : ListboxController :=
  { s with tabindexItems := l,
           tabindexActive :=
             match s.tabindexActive with
             | some a => if l.contains a then some a else l.head?
             | none => l.head? }

/-- Modelled from the spec: `updateActiveItem(item)` reassigns the active
pointer without moving DOM focus. -/
def tabUpdateActiveItem (s : ListboxController) (i : Option Nat) : ListboxController :=
  { s with tabindexActive := i }

/-- Modelled from the spec: `focusOnItem(item)` reassigns the active pointer
and moves actual input focus to the item. -/
def tabFocusOnItem (s : ListboxController) (i : Option Nat) : ListboxController :=
  { s with tabindexActive := i, domFocused := i }

/-- Case folding used by the `i` regex flag (modelled on ASCII text),
computed on the character list of the string. -/
def foldCase (caseSensitive : Bool) (t : String) : List Char :=
  if caseSensitive then t.toList else t.toList.map Char.toLower

/-- Substring test: does `needle` occur inside `hay`? -/
def containsSub (hay needle : List Char) : Bool :=
  hay.tails.any fun suffix => needle.isPrefixOf suffix

/-- The match test of the `visibleOptions` filter callback:
`this.filter === '' || text.match(regex)` where `regex` is
`new RegExp((matchAnywhere ? "" : "^") + filter, caseSensitive ? "" : "i")`,
modelled on literal filter text. -/
def filterMatches (s : ListboxController) (text : String) : Bool :=
  if s.filter == "" then true
  else if s.matchAnywhere then
    containsSub (foldCase s.caseSensitive text) (foldCase s.caseSensitive s.filter)
  else
    (foldCase s.caseSensitive s.filter).isPrefixOf (foldCase s.caseSensitive text)

/-- `selectedOptions` getter: the options whose `selected` flag is set. -/
def selectedOptions (s : ListboxController) : List ListboxOptionElement :=
  s.options.filter fun o => o.selected

/-- The pure part of the `visibleOptions` getter: the options matching the
filter, or the full option list when filtering is off (`disableFilter`,
filter `*`, transient show-all flag) or when no option matches. -/
def visibleOptions (s : ListboxController) : List ListboxOptionElement :=
  let matchedOptions : List ListboxOptionElement :=
    if !(s.disableFilter || s.filter == "*" || s.showAllOptions) then
      s.options.filter fun o => filterMatches s o.textContent
    else []
  if matchedOptions.length < 1 then s.options else matchedOptions

/-- The observable side effect of the `visibleOptions` getter: when the
DOM-focused option is being hidden by the filter, record that focus must be
reassigned on the next filter pass.  (The `hidden-by-filter` attribute writes
are not stored; the controller never reads them.) -/
def visibleOptionsEffect (s : ListboxController) : ListboxController :=
  let matched := visibleOptions s
  { s with updateFocus :=
      s.updateFocus ||
        s.options.any fun o => !matched.contains o && s.domFocused == some o.id }

/-- Look up an option element by its id. -/
def findOptionById (s : ListboxController) (i : Nat) : Option ListboxOptionElement :=
  s.options.find? fun o => o.id == i

/-- `activeItem` getter: the option whose id equals the published
active-descendant, else the tracker's first item
(`active || this.#tabindex.firstItem`; the tracker holds element
references, modelled by looking the stored id back up in the option
list). -/
def activeItem (s : ListboxController) : Option ListboxOptionElement :=
  match (s.options.filter fun o => some o.id == s.ariaActivedescendant).head? with
  | some a => some a
  | none => (tabFirstItem s).bind (findOptionById s)

/-- First selected option's id: the identity observed by the JS comparison
`oldValue !== this.value` in single-select mode, where `value` is the first
selected option element itself. -/
def firstSelectedId (s : ListboxController) : Option Nat :=
  ((s.options.filter fun o => o.selected).head?).map fun o => o.id

/-- The JS change test `oldValue !== this.value`.  In multi-select mode
`value` is a freshly allocated array of the selected options, so the
reference comparison is always unequal; in single-select mode `value` is the
first selected option element, compared by identity. -/
def jsValueNeq (oldFirst : Option Nat) (s : ListboxController) : Bool :=
  if s.ariaMultiSelectable then true else oldFirst != firstSelectedId s

/-- `#fireChange`: dispatch a `change` event on the host. -/
def fireChange (s : ListboxController) : ListboxController :=
  { s with events := s.events ++ [FiredEvent.change] }

/-- `#fireInput`: dispatch an `input` event on the host. -/
def fireInput (s : ListboxController) : ListboxController :=
  { s with events := s.events ++ [FiredEvent.input] }

/-- JavaScript `String.prototype.split(',')` on the character list of a
string: the empty string yields one empty token. -/
def jsSplitComma : List Char → List (List Char)
  | [] => [[]]
  | c :: rest =>
    let r := jsSplitComma rest
    if c == ',' then [] :: r
    else
      match r with
      | t :: ts => (c :: t) :: ts
      | [] => [[c]]

/-- `isValid(val)`: every comma-separated token of `val` is the text of some
existing option (`val?.split(',') || []`, so a null input yields no tokens). -/
def isValid (s : ListboxController) (val : Option String) : Bool :=
  let vals := match val with
    | some v => jsSplitComma v.toList
    | none => []
  let texts := s.options.map fun o => o.textContent.toList
  vals.all fun v => texts.contains v

/-- JavaScript string comparison (code-unit lexicographic `<`), as used by
the default `Array.prototype.sort` comparator. -/
def jsStrLt : List Char → List Char → Bool
  | [], [] => false
  | [], _ :: _ => true
  | _ :: _, [] => false
  | a :: as, b :: bs =>
    if a.val < b.val then true
    else if b.val < a.val then false
    else jsStrLt as bs

/-- JavaScript `[a, b].sort()`: the DEFAULT comparator converts the numbers
to strings and compares them lexicographically (the source calls `.sort()`
with no comparator on the two indices). -/
def jsSortPair (a b : Int) : Int × Int :=
  if jsStrLt (toString b).toList (toString a).toList then (b, a) else (a, b)

/-- JavaScript `Array.prototype.indexOf` by element identity, modelled by id:
index of the first option with the given id, `-1` when absent. -/
def jsIndexOf : List ListboxOptionElement → Nat → Int
  | [], _ => -1
  | o :: rest, i =>
    if o.id == i then 0
    else
      let r := jsIndexOf rest i
      if r < 0 then -1 else r + 1

/-- The clamped index interval denoted by JavaScript `slice(start, stop)` on
a list of length `n` (negative indices count from the end). -/
def sliceBounds (n : Nat) (start stop : Int) : Nat × Nat :=
  let lo : Int := if start < 0 then max ((n : Int) + start) 0 else min start (n : Int)
  let hi : Int := if stop < 0 then max ((n : Int) + stop) 0 else min stop (n : Int)
  (lo.toNat, hi.toNat)

/-- JavaScript `l.slice(start, stop)`. -/
def jsSlice (l : List ListboxOptionElement) (start stop : Int) : List ListboxOptionElement :=
  let bounds := sliceBounds l.length start stop
  (l.drop bounds.1).take (bounds.2 - bounds.1)

/-- Set the `selected` flag of the options at positions `lo ≤ i < hi` to `t`
(the in-place `forEach` mutation of the sliced range aliases back into the
full option list). -/
def setSelectedRange : List ListboxOptionElement → Nat → Nat → Nat → Bool → List ListboxOptionElement
  | [], _, _, _, _ => []
  | o :: rest, i, lo, hi, t =>
    (if lo ≤ i ∧ i < hi then { o with selected := t } else o)
      :: setSelectedRange rest (i + 1) lo hi t

/-- `#updateMultiselect(currentItem, referenceItem, ctrlKey)`: in
multi-select mode, select or deselect the whole slice of the full option
list between the two indices produced by the default (string) sort of
`[indexOf(referenceItem), indexOf(currentItem)]`, then record the current
item as the new shift anchor.  With Ctrl, the range is deselected when every
option in it is selected and selected otherwise; without Ctrl, it is set to
the reference item's own `selected` state. -/
def updateMultiselect (s : ListboxController) (currentId referenceId : Nat)
    (ctrlKey : Bool) : ListboxController :=
  if multiSelectable s then
    let sorted := jsSortPair (jsIndexOf s.options referenceId) (jsIndexOf s.options currentId)
    let bounds := sliceBounds s.options.length sorted.1 (sorted.2 + 1)
    let range := (s.options.drop bounds.1).take (bounds.2 - bounds.1)
    let allSelected := ctrlKey && (range.filter fun o => !o.selected).length == 0
    let refSelected := ((findOptionById s referenceId).map fun o => o.selected).getD false
    let toggle := if ctrlKey && allSelected then false else if ctrlKey then true else refSelected
    { s with options := setSelectedRange s.options 0 bounds.1 bounds.2 toggle,
             shiftStartingItem := some currentId }
  else s

/-- `#updateSingleselect`: in single-select mode, make the selection mirror
the published active-descendant exactly, then fire `change`. -/
def updateSingleselect (s : ListboxController) : ListboxController :=
  if !multiSelectable s then
    fireChange
      { s with options :=
          s.options.map fun o => { o with selected := some o.id == s.ariaActivedescendant } }
  else s

/-- One iteration of the `#updateActiveDescendant` loop over an option `o`:
the option that is the tracker's active item and visible becomes the
published active-descendant; an option that was the active-descendant but no
longer qualifies clears it. -/
def uadStep (vis : List ListboxOptionElement) (acc : ListboxController)
    (o : ListboxOptionElement) : ListboxController :=
  if some o.id == acc.tabindexActive && vis.contains o then
    { acc with ariaActivedescendant := some o.id }
  else if acc.ariaActivedescendant == some o.id then
    { acc with ariaActivedescendant := none }
  else acc

/-- `#updateActiveDescendant`: walk the full option list with `uadStep`.
(The per-option `active-descendant` attribute writes are not stored; the
getter side effect of `this.visibleOptions` is applied once, being
idempotent.) -/
def updateActiveDescendant (s : ListboxController) : ListboxController :=
  let vis := visibleOptions s
  let s1 := visibleOptionsEffect s
  s1.options.foldl (uadStep vis) s1

/-- `#onFilterChange`: no-op while disabled; otherwise rebind the tracker to
the visible options (preserving the active item when a deferred focus update
is pending, else resetting it) and fire `input` when the derived value
changed. -/
def onFilterChange (s : ListboxController) : ListboxController :=
  if disabled s then s
  else
    let oldFirst := firstSelectedId s
    let s1 :=
      if s.updateFocus then
        let se := visibleOptionsEffect s
        { tabUpdateItems se ((visibleOptions se).map fun o => o.id) with updateFocus := false }
      else
        let se := visibleOptionsEffect s
        tabInitItems se ((visibleOptions se).map fun o => o.id)
    if jsValueNeq oldFirst s1 then fireInput s1 else s1

/-- The `filter` property setter: update and re-evaluate only on change. -/
def setFilter (s : ListboxController) (t : String) : ListboxController :=
  if s.filter != t then onFilterChange { s with filter := t } else s

/-- The `caseSensitive` property setter. -/
def setCaseSensitive (s : ListboxController) (b : Bool) : ListboxController :=
  if s.caseSensitive != b then onFilterChange { s with caseSensitive := b } else s

/-- The `disableFilter` property setter. -/
def setDisableFilter (s : ListboxController) (b : Bool) : ListboxController :=
  if s.disableFilter != b then onFilterChange { s with disableFilter := b } else s

/-- The `matchAnywhere` property setter. -/
def setMatchAnywhere (s : ListboxController) (b : Bool) : ListboxController :=
  if s.matchAnywhere != b then onFilterChange { s with matchAnywhere := b } else s

/-- The typeahead key test `event.key?.match(/^[\w]$/)?.input`: a single
word character (ASCII letter, digit or underscore). -/
def isWordChar (k : String) : Bool :=
  match k.toList with
  | [c] => c.isAlphanum || c == '_'
  | _ => false

/-- `#nextMatchingItem(key)`: rotate the visible options and return the
first non-disabled, non-hidden one whose text starts with `key`.  The source
computes `const index = !this.activeItem ? items.indexOf(this.activeItem) : -1;`
so when the active item exists the index is `-1`, and when it is null the
`indexOf` of a null value over genuine elements is also `-1`: the rotation
always starts at the LAST visible option. -/
def nextMatchingItem (s : ListboxController) (key : String) : Option ListboxOptionElement :=
  let items := visibleOptions s
  let index : Int := if (activeItem s).isSome then -1 else -1
  let sequence := jsSlice items index items.length ++ jsSlice items 0 index
  sequence.find? fun o =>
    !o.disabled && !o.hidden &&
      (foldCase s.caseSensitive key).isPrefixOf (foldCase s.caseSensitive o.textContent)

/-- `#onOptionFocus(event)`: update the roving tabindex and the published
active-descendant when an option gains focus. -/
def onOptionFocus (s : ListboxController) (target : Option Nat) : ListboxController :=
  let s0 := { s with domFocused := target }
  let s1 := if target != s0.tabindexActive then tabUpdateActiveItem s0 target else s0
  updateActiveDescendant s1

/-- `#onOptionClick(event)`: single-select clicks select the target
exclusively; multi-select clicks toggle the target, or perform a range
select against the stored shift anchor on Shift+click; focus moves to the
target when it was not the active item; `change` fires when the derived
value changed. -/
def onOptionClick (s : ListboxController) (e : MouseEvent) : ListboxController :=
  let oldFirst := firstSelectedId s
  let s1 :=
    if multiSelectable s then
      if !e.shiftKey then
        { s with options :=
            s.options.map fun o =>
              if some o.id == e.target then { o with selected := !o.selected } else o }
      else
        match s.shiftStartingItem, e.target with
        | some a, some t => fireChange (updateMultiselect s t a false)
        | _, _ => s
    else
      { s with options := s.options.map fun o => { o with selected := some o.id == e.target } }
  let s2 :=
    -- `target !== this.#tabindex.activeItem`, compared by element identity
    -- (a null target versus an undefined active item is not distinguished)
    if e.target != s1.tabindexActive then
      updateActiveDescendant (tabFocusOnItem s1 e.target)
    else s1
  if jsValueNeq oldFirst s2 then fireChange s2 else s2

/-- `#onOptionKeyup(event)`: while Shift is held in multi-select mode, a
keyup reconciles the range between the stored anchor and the event target
(firing `change`), and a keyup of the Shift key itself clears the anchor. -/
def onOptionKeyup (s : ListboxController) (e : KeyboardEvent) : ListboxController :=
  if e.shiftKey && multiSelectable s then
    let s1 :=
      match s.shiftStartingItem, e.target with
      | some a, some t => fireChange (updateMultiselect s t a false)
      | _, _ => s
    if e.key == "Shift" then { s1 with shiftStartingItem := none } else s1
  else s

/-- The tail of `#onOptionKeydown`: fire `change` when the captured value
identity differs from the current one, then move focus to the typeahead
match when one was found. -/
def keydownTail (s : ListboxController) (oldFirst : Option Nat)
    (focusEvent : Option ListboxOptionElement) : ListboxController :=
  let s1 := if jsValueNeq oldFirst s then fireChange s else s
  match focusEvent with
  | some item => tabFocusOnItem s1 (some item.id)
  | none => s1

/-- The dispatch part of `#onOptionKeydown` after the show-all clear and the
Shift anchor recording: Alt/Meta pass through; Ctrl recognizes only Ctrl+A
(range select first..last tracker item with the toggle rule); a single word
character is a typeahead query; Enter and Space commit a selection when an
element target exists. -/
def keydownDispatch (s2 : ListboxController) (e : KeyboardEvent) : ListboxController :=
  let oldFirst := firstSelectedId s2
  if e.altKey || e.metaKey then s2
  else if e.ctrlKey then
    if (e.key == "a" || e.key == "A") && (tabFirstItem s2).isSome then
      let s3 :=
        match tabFirstItem s2, tabLastItem s2 with
        | some f, some l => updateMultiselect s2 f l true
        | _, _ => s2
      keydownTail s3 oldFirst none
    else s2
  else if isWordChar e.key then
    keydownTail s2 oldFirst (nextMatchingItem s2 e.key)
  else if e.key == "Enter" || e.key == " " then
    match e.target with
    | some t =>
      let s3 :=
        if multiSelectable s2 then
          if e.shiftKey then
            match activeItem s2 with
            | some r => updateMultiselect s2 t r.id false
            | none => s2
          else
            { s2 with options :=
                s2.options.map fun o =>
                  if o.id == t then { o with selected := !o.selected } else o }
        else updateSingleselect s2
      keydownTail s3 oldFirst none
    | none => keydownTail s2 oldFirst none
  else keydownTail s2 oldFirst none

/-- `#onOptionKeydown(event)`: clear the show-all override, record the shift
anchor on a Shift keydown in multi-select mode, then dispatch. -/
def onOptionKeydown (s0 : ListboxController) (e : KeyboardEvent) : ListboxController :=
  let s1 := { s0 with showAllOptions := false }
  let s2 :=
    if e.key == "Shift" && multiSelectable s1 then
      { s1 with shiftStartingItem := (activeItem s1).map fun o => o.id }
    else s1
  keydownDispatch s2 e

/-- The four DOM event kinds the controller listens for on its host. -/
inductive DomEvent
  | keydown (e : KeyboardEvent)
  | keyup (e : KeyboardEvent)
  | optionfocus (target : Option Nat)
  | click (e : MouseEvent)

/-- Dispatch one DOM event to its handler. -/
def step (s : ListboxController) : DomEvent → ListboxController
  | DomEvent.keydown e => onOptionKeydown s e
  | DomEvent.keyup e => onOptionKeyup s e
  | DomEvent.optionfocus t => onOptionFocus s t
  | DomEvent.click e => onOptionClick s e

/-- Run a sequence of DOM events. -/
def run (s : ListboxController) (es : List DomEvent) : ListboxController :=
  es.foldl step s

/-- Build an option element with the given id, text and selection flag. -/
def mkOption (i : Nat) (t : String) (sel : Bool) : ListboxOptionElement :=
  { id := i, textContent := t, value := 0, selected := sel, disabled := false, hidden := false }

/-- A freshly connected listbox over the given options: empty filter,
default configuration, tracker initialized over all options. -/
def mkState (opts : List ListboxOptionElement) (multi : Bool) : ListboxController :=
  { filter := "", showAllOptions := false, caseSensitive := false, disableFilter := false,
    matchAnywhere := false, shiftStartingItem := none, options := opts, updateFocus := false,
    ariaDisabled := false, ariaMultiSelectable := multi, ariaActivedescendant := none,
    tabindexItems := opts.map fun o => o.id, tabindexActive := (opts.map fun o => o.id).head?,
    domFocused := none, events := [] }

/-- The option list used throughout the spec scenarios and the test suites. -/
def colorOptions : List ListboxOptionElement :=
  [mkOption 0 "Blue" false, mkOption 1 "Green" false, mkOption 2 "Magenta" false,
   mkOption 3 "Orange" false, mkOption 4 "Purple" false, mkOption 5 "Pink" false,
   mkOption 6 "Red" false, mkOption 7 "Yellow" false]

end ListboxController

namespace ListboxController

/-- Scenario-B state of the spec: the color options with filter `r` and
match-anywhere enabled. -/
def scenarioBState : ListboxController :=
  { mkState colorOptions false with filter := "r", matchAnywhere := true }

/-- State refuting C6 as stated: the color options with filter `z`
(case-insensitive, match-at-start), which matches no option. -/
def noMatchState : ListboxController :=
  { mkState colorOptions false with filter := "z" }

/-- C1: for every configuration, a non-empty option list yields a non-empty
visible-options result, and when the match predicate matches no option the
derivation returns the full unfiltered option list. -/
theorem c1_visible_nonempty (s : ListboxController) (h : s.options ≠ []) :
    visibleOptions s ≠ [] ∧
    ((s.options.filter fun o => filterMatches s o.textContent) = [] →
      visibleOptions s = s.options) := by
  have hN : ∀ (m : List ListboxOptionElement),
      (if m.length < 1 then s.options else m) ≠ [] := by
    intro m
    split
    · exact h
    · next hlen =>
      intro hnil
      rw [hnil] at hlen
      simp at hlen
  have hM : ∀ (m : List ListboxOptionElement), m = [] →
      (if m.length < 1 then s.options else m) = s.options := by
    intro m hm
    rw [hm]
    simp
  refine ⟨?_, fun hfil => ?_⟩
  · simpa only [visibleOptions] using hN _
  · have hmid :
        (if !(s.disableFilter || s.filter == "*" || s.showAllOptions) then
          s.options.filter fun o => filterMatches s o.textContent
        else []) = [] := by
      split
      · exact hfil
      · rfl
    simpa only [visibleOptions] using hM _ hmid

/-- Witness for C1 at a concrete non-empty state. -/
theorem c1_visible_nonempty_witness :
    visibleOptions noMatchState ≠ [] :=
  (c1_visible_nonempty noMatchState (by decide)).1

/-- C6 counterexample: with filter `z` (filtering enabled, no wildcard) the
visible options are NOT "exactly the options whose text matches the filter":
no option matches, yet the visible list is the full 8-element option list. -/
theorem c6_cex :
    visibleOptions noMatchState ≠
      (noMatchState.options.filter fun o => filterMatches noMatchState o.textContent) ∧
    visibleOptions noMatchState = noMatchState.options ∧
    (noMatchState.options.filter fun o => filterMatches noMatchState o.textContent) = [] ∧
    noMatchState.options ≠ [] := by decide

/-- C6 amended: when filtering is enabled (no `disableFilter`, filter not
`*`, no transient show-all), the filter text is non-empty, and at least one
option matches, the visible options are exactly the matching options of the
full list in original order; in particular scenario B (colors, filter `r`,
match-anywhere) yields `[Green, Orange, Purple, Red]`. -/
theorem c6_filter_characterization (s : ListboxController)
    (_h1 : s.filter ≠ "") (h2 : s.filter ≠ "*")
    (h3 : s.disableFilter = false) (h4 : s.showAllOptions = false)
    (h5 : (s.options.filter fun o => filterMatches s o.textContent) ≠ []) :
    visibleOptions s = s.options.filter (fun o => filterMatches s o.textContent) ∧
    (visibleOptions scenarioBState).map (fun o => o.textContent) =
      ["Green", "Orange", "Purple", "Red"] := by
  refine ⟨?_, by decide⟩
  have h2' : (s.filter == "*") = false := by simp [h2]
  simp only [visibleOptions, h3, h4, h2', Bool.or_false, Bool.false_or, Bool.not_false, if_true]
  split
  · next hlen =>
    exact absurd (List.length_eq_zero.mp (Nat.lt_one_iff.mp hlen)) h5
  · rfl

/-- Witness for C6 amended at the scenario-B state. -/
theorem c6_filter_characterization_witness :
    visibleOptions scenarioBState =
      scenarioBState.options.filter (fun o => filterMatches scenarioBState o.textContent) :=
  (c6_filter_characterization scenarioBState (by decide) (by decide) (by decide) (by decide)
    (by decide)).1

end ListboxController

namespace ListboxController

/-- C8 counterexample: on a null (absent) input, `isValid` returns `true`
(the token list is empty and the `every` is vacuous), not `false` as the
claim states. -/
theorem c8_cex :
    isValid (mkState colorOptions false) none = true ∧
    isValid (mkState colorOptions false) (some "") = false := by decide

/-- C8 amended: `isValid` returns true exactly when every token of the
comma-split input (JS semantics: a null input yields no tokens, the empty
string yields one empty token) equals the text of some existing option; in
particular a null input returns true vacuously, and the embedding is a total
function (never throws). -/
theorem c8_isValid_characterization (s : ListboxController) (val : Option String) :
    (isValid s val = true ↔
      ∀ t ∈ (match val with | some v => jsSplitComma v.toList | none => []),
        ∃ o ∈ s.options, o.textContent.toList = t) ∧
    isValid s none = true := by
  constructor
  · simp only [isValid, List.all_eq_true]
    constructor
    · intro hall t ht
      have hmem := hall t ht
      rw [List.elem_iff, List.mem_map] at hmem
      obtain ⟨o, ho, hoe⟩ := hmem
      exact ⟨o, ho, hoe⟩
    · intro hmem t ht
      rw [List.elem_iff]
      obtain ⟨o, ho, hoe⟩ := hmem t ht
      exact List.mem_map.mpr ⟨o, ho, hoe⟩
  · rfl

/-- Witness for C8 amended: a concrete valid comma-separated input. -/
theorem c8_isValid_characterization_witness :
    isValid (mkState colorOptions false) (some "Blue,Red") = true :=
  (c8_isValid_characterization (mkState colorOptions false) (some "Blue,Red")).1.mpr
    (by decide)

/-- A disabled single-select listbox over one unselected option. -/
def disabledState : ListboxController :=
  { mkState [mkOption 0 "a" false] false with ariaDisabled := true }

/-- C9 counterexample: the click handler has no disabled guard — clicking an
option of a disabled listbox still mutates its selection. -/
theorem c9_cex :
    disabledState.ariaDisabled = true ∧
    disabledState.options.map (fun o => o.selected) = [false] ∧
    ((step disabledState (DomEvent.click { target := some 0, shiftKey := false })).options.map
      fun o => o.selected) = [true] := by decide

/-- C9 amended: while `disabled` is true, the filter-affecting operations
(the `filter`, `caseSensitive`, `matchAnywhere` and `disableFilter` setters)
only record the new setting: the resulting state is the input state with
just that one field replaced — no option's `selected` flag, no tracker
state, no published attribute and no notification changes.  (Click and
keyboard selection handlers contain no disabled guard; see the
counterexample.) -/
theorem c9_disabled_setters (s : ListboxController) (t : String) (b : Bool)
    (hd : s.ariaDisabled = true) :
    setFilter s t = { s with filter := t } ∧
    setCaseSensitive s b = { s with caseSensitive := b } ∧
    setMatchAnywhere s b = { s with matchAnywhere := b } ∧
    setDisableFilter s b = { s with disableFilter := b } := by
  have hdis : ∀ (s' : ListboxController), s'.ariaDisabled = true → onFilterChange s' = s' := by
    intro s' h
    simp only [onFilterChange, disabled, h, if_true]
  refine ⟨?_, ?_, ?_, ?_⟩
  · simp only [setFilter]
    split
    · exact hdis _ hd
    · next hne =>
      have : s.filter = t := by simpa using hne
      rw [← this]
  · simp only [setCaseSensitive]
    split
    · exact hdis _ hd
    · next hne =>
      have : s.caseSensitive = b := by simpa using hne
      rw [← this]
  · simp only [setMatchAnywhere]
    split
    · exact hdis _ hd
    · next hne =>
      have : s.matchAnywhere = b := by simpa using hne
      rw [← this]
  · simp only [setDisableFilter]
    split
    · exact hdis _ hd
    · next hne =>
      have : s.disableFilter = b := by simpa using hne
      rw [← this]

/-- Witness for C9 amended at the concrete disabled state. -/
theorem c9_disabled_setters_witness :
    setFilter disabledState "zzz" = { disabledState with filter := "zzz" } :=
  (c9_disabled_setters disabledState "zzz" false (by decide)).1

end ListboxController

namespace ListboxController

/-- Eleven options (ids 0..10) of which only the one at index 2 is
selected, in a multi-select listbox. -/
def elevenState : ListboxController :=
  mkState ((List.range 11).map fun i => mkOption i (toString i) (i == 2)) true

/-- C3 evaluation at the failing input: a range operation with reference at
index 2 and target at index 10.  The source sorts the two indices with the
DEFAULT `Array.prototype.sort`, which compares them as strings, so
`[2, 10].sort()` yields `[10, 2]` and `slice(10, 3)` is empty: NO option is
affected, although the claim demands that the contiguous range 2..10 be set
to the reference option's selected state (true).  The shift anchor is still
reassigned. -/
theorem c3_sort_bug_eval :
    jsSortPair (jsIndexOf elevenState.options 2) (jsIndexOf elevenState.options 10) = (10, 2) ∧
    (updateMultiselect elevenState 10 2 false).options.map (fun o => o.selected) =
      [false, false, true, false, false, false, false, false, false, false, false] ∧
    (updateMultiselect elevenState 10 2 false).options.map (fun o => o.selected) ≠
      (elevenState.options.map fun o => if 2 ≤ o.id ∧ o.id ≤ 10 then true else o.selected) ∧
    (updateMultiselect elevenState 10 2 false).shiftStartingItem = some 10 := by decide

/-- Three visible options whose texts all start with `a`, with the first one
(`ax`) as published active-descendant, in a single-select listbox. -/
def typeaheadState : ListboxController :=
  { mkState [mkOption 0 "ax" false, mkOption 1 "ay" false, mkOption 2 "az" false] false with
      ariaActivedescendant := some 0 }

/-- C5 evaluation at the failing input: the active item is the FIRST option
(`ax`), so the claimed circular search starting just after it would find
`ay` (id 1); the source's inverted guard
`!this.activeItem ? items.indexOf(this.activeItem) : -1` always yields `-1`,
so the rotation starts at the LAST visible option and the typeahead returns
`az` (id 2), and the keydown focuses it. -/
theorem c5_typeahead_eval :
    (activeItem typeaheadState).map (fun o => o.id) = some 0 ∧
    (visibleOptions typeaheadState).map (fun o => o.id) = [0, 1, 2] ∧
    (nextMatchingItem typeaheadState "a").map (fun o => o.id) = some 2 ∧
    (nextMatchingItem typeaheadState "a").map (fun o => o.id) ≠ some 1 ∧
    (step typeaheadState (DomEvent.keydown
      { key := "a", ctrlKey := false, altKey := false, metaKey := false, shiftKey := false,
        target := some 0 })).tabindexActive = some 2 := by decide

/-- A multi-select listbox over an empty option list. -/
def emptyMultiState : ListboxController := mkState [] true

/-- C7 evaluation at the failing input: on an empty multi-select option
list, the derived value is unchanged by any operation, yet a filter change
fires `input` and a plain keydown fires `change`: in multi-select mode
`oldValue !== this.value` compares two freshly allocated arrays and is
always true. -/
theorem c7_notify_eval :
    emptyMultiState.options = [] ∧
    selectedOptions emptyMultiState = [] ∧
    selectedOptions (setFilter emptyMultiState "x") = [] ∧
    (setFilter emptyMultiState "x").events = [FiredEvent.input] ∧
    (step emptyMultiState (DomEvent.keydown
      { key := "ArrowDown", ctrlKey := false, altKey := false, metaKey := false,
        shiftKey := false, target := none })).events = [FiredEvent.change] := by decide

end ListboxController

namespace ListboxController

/-- A decimal digit strictly between 0 and 10 renders as a character
between `1` and `9`. -/
theorem digitChar_between (d : Nat) (h1 : 0 < d) (h2 : d < 10) :
    '1' ≤ Nat.digitChar d ∧ Nat.digitChar d ≤ '9' := by
  interval_cases d <;> exact ⟨by decide, by decide⟩

/-- The digit expansion of a positive number starts with a character
between `1` and `9`. -/
theorem toDigitsCore_head (fuel : Nat) :
    ∀ (n : Nat) (ds : List Char), 0 < n → n ≤ fuel →
      ∃ c cs, Nat.toDigitsCore 10 fuel n ds = c :: cs ∧ '1' ≤ c ∧ c ≤ '9' := by
  induction fuel with
  | zero => intro n ds h1 h2; omega
  | succ fuel ih =>
    intro n ds h1 h2
    rw [Nat.toDigitsCore]
    by_cases hten : n / 10 = 0
    · have hlt : n < 10 := by
        by_contra hge
        have : 1 ≤ n / 10 := (Nat.one_le_div_iff (by norm_num)).mpr (by omega)
        omega
      rw [if_pos hten]
      refine ⟨Nat.digitChar (n % 10), ds, rfl, ?_, ?_⟩
      · rw [Nat.mod_eq_of_lt hlt]
        exact (digitChar_between n h1 hlt).1
      · rw [Nat.mod_eq_of_lt hlt]
        exact (digitChar_between n h1 hlt).2
    · rw [if_neg hten]
      refine ih (n / 10) _ (Nat.pos_of_ne_zero hten) ?_
      have : n / 10 < n := Nat.div_lt_self h1 (by norm_num)
      omega

/-- The decimal rendering of a positive number starts with a digit between
`1` and `9`. -/
theorem repr_head (m : Nat) (h : 0 < m) :
    ∃ c cs, (Nat.repr m).toList = c :: cs ∧ '1' ≤ c ∧ c ≤ '9' := by
  have hrfl : (Nat.repr m).toList = Nat.toDigitsCore 10 (m + 1) m [] := rfl
  rw [hrfl]
  exact toDigitsCore_head (m + 1) m [] h (Nat.le_succ m)

/-- As JavaScript strings, `"0"` precedes the rendering of any positive
number. -/
theorem jsStrLt_zero_repr (m : Nat) (h : 0 < m) :
    jsStrLt (toString (0 : Int)).toList (toString ((m : Nat) : Int)).toList = true := by
  have h0 : (toString (0 : Int)).toList = ['0'] := by decide
  have hm : (toString ((m : Nat) : Int)).toList = (Nat.repr m).toList := rfl
  obtain ⟨c, cs, hcs, h1c, _⟩ := repr_head m h
  rw [h0, hm, hcs]
  have hv : '0'.val < c.val :=
    Char.lt_def.mp (lt_of_lt_of_le (show ('0' : Char) < '1' by decide) h1c)
  simp only [jsStrLt]
  rw [if_pos hv]

/-- The JavaScript default sort of the pair `[m, 0]` (for a natural `m`)
puts `0` first: `"0"` is never preceded by the decimal rendering of a
natural number. -/
theorem jsSortPair_natCast_zero (m : Nat) : jsSortPair ((m : Int)) 0 = (0, (m : Int)) := by
  unfold jsSortPair
  rcases Nat.eq_zero_or_pos m with h | h
  · subst h
    decide
  · rw [jsStrLt_zero_repr m h]
    simp

/-- Unfolding equation of `jsIndexOf` on a cons cell. -/
theorem jsIndexOf_cons (o : ListboxOptionElement) (rest : List ListboxOptionElement) (i : Nat) :
    jsIndexOf (o :: rest) i =
      if o.id == i then 0
      else if jsIndexOf rest i < 0 then -1 else jsIndexOf rest i + 1 := rfl

/-- `indexOf` of the head element's id is 0. -/
theorem jsIndexOf_head (o : ListboxOptionElement) (rest : List ListboxOptionElement) :
    jsIndexOf (o :: rest) o.id = 0 := by
  simp [jsIndexOf]

/-- With distinct ids, `indexOf` of the last element's id is `length - 1`. -/
theorem jsIndexOf_getLast (l : List ListboxOptionElement) :
    ∀ (h : l ≠ []), ((l.map fun o => o.id).Nodup) →
      jsIndexOf l (l.getLast h).id = ((l.length - 1 : Nat) : Int) := by
  induction l with
  | nil => intro h; exact absurd rfl h
  | cons o rest ih =>
    intro h hnd
    cases rest with
    | nil => simp [jsIndexOf]
    | cons b bs =>
      have hne : (b :: bs) ≠ [] := by simp
      have hmap : ((o :: b :: bs).map fun x => x.id) = o.id :: ((b :: bs).map fun x => x.id) := by
        simp
      rw [hmap] at hnd
      have hnotin := (List.nodup_cons.mp hnd).1
      have hnd' := (List.nodup_cons.mp hnd).2
      have hlast : (o :: b :: bs).getLast h = (b :: bs).getLast hne := List.getLast_cons hne
      have hmem : (b :: bs).getLast hne ∈ (b :: bs) := List.getLast_mem hne
      have hid_ne : (o.id == ((b :: bs).getLast hne).id) = false := by
        rw [beq_eq_false_iff_ne]
        intro he
        exact hnotin (List.mem_map.mpr ⟨_, hmem, he.symm⟩)
      have hrec := ih hne hnd'
      rw [hlast, jsIndexOf_cons]
      simp only [hid_ne, Bool.false_eq_true, if_false]
      rw [hrec]
      rw [if_neg (by omega : ¬ ((((b :: bs).length - 1 : Nat) : Int) < 0))]
      simp only [List.length_cons]
      omega

/-- Setting the selection over the full index range is a plain map. -/
theorem setSelectedRange_all (t : Bool) : ∀ (l : List ListboxOptionElement) (i hi : Nat),
    i + l.length ≤ hi →
    setSelectedRange l i 0 hi t = l.map fun o => { o with selected := t } := by
  intro l
  induction l with
  | nil => intro i hi _; rfl
  | cons o rest ih =>
    intro i hi hle
    simp only [setSelectedRange, List.map_cons, List.length_cons] at *
    rw [if_pos ⟨Nat.zero_le i, by omega⟩, ih (i + 1) hi (by omega)]

end ListboxController

namespace ListboxController

/-- The emptiness test of the ctrl-range (`filter(o => !o.selected).length === 0`)
is `all selected`. -/
theorem filter_not_selected_length (l : List ListboxOptionElement) :
    (((l.filter fun o => !o.selected).length == 0)) = (l.all fun x => x.selected) := by
  rw [Bool.eq_iff_iff]
  simp [List.length_eq_zero, List.filter_eq_nil_iff, List.all_eq_true]

/-- `indexOf` of the head's id is 0. -/
theorem jsIndexOf_head_id (l : List ListboxOptionElement) (h : l ≠ []) :
    jsIndexOf l ((l.head h).id) = 0 := by
  cases l with
  | nil => exact absurd rfl h
  | cons o rest => simp [List.head_cons, jsIndexOf_cons]

/-- A range operation from the head to the last option of the full list
(with distinct ids) covers the whole list: with Ctrl it sets every option's
`selected` to the negation of "all selected", and records the head as new
anchor. -/
theorem updateMultiselect_full (s : ListboxController)
    (hm : s.ariaMultiSelectable = true) (hne : s.options ≠ [])
    (hnd : (s.options.map fun o => o.id).Nodup) :
    updateMultiselect s ((s.options.head hne).id) ((s.options.getLast hne).id) true =
      { s with
          options := s.options.map fun o =>
            { o with selected := !(s.options.all fun x => x.selected) },
          shiftStartingItem := some ((s.options.head hne).id) } := by
  have hidx1 : jsIndexOf s.options ((s.options.head hne).id) = 0 := jsIndexOf_head_id s.options hne
  have hidx2 : jsIndexOf s.options ((s.options.getLast hne).id) =
      ((s.options.length - 1 : Nat) : Int) := jsIndexOf_getLast s.options hne hnd
  have hpos : 1 ≤ s.options.length := List.length_pos.mpr hne
  unfold updateMultiselect
  simp only [multiSelectable, hm, if_true]
  rw [hidx1, hidx2, jsSortPair_natCast_zero]
  have hcast : ((s.options.length - 1 : Nat) : Int) + 1 = (s.options.length : Int) := by omega
  rw [hcast]
  have hsb : sliceBounds s.options.length 0 (s.options.length : Int) =
      (0, s.options.length) := by
    simp only [sliceBounds]
    rw [if_neg (by omega : ¬ ((0 : Int) < 0)),
       if_neg (by omega : ¬ ((s.options.length : Int) < 0))]
    rw [min_self, min_eq_left (by omega : (0 : Int) ≤ (s.options.length : Int))]
    simp
  rw [hsb]
  simp only [List.drop_zero, Nat.sub_zero, List.take_length]
  rw [filter_not_selected_length]
  rw [setSelectedRange_all _ _ 0 _ (by omega)]
  cases hall : s.options.all fun x => x.selected <;> simp

end ListboxController

namespace ListboxController

/-- Ctrl+A keydown with the tracker bound to the full option list: the full
state transition — every option's selection becomes the negation of
"all selected", the anchor becomes the first option, and `change` fires. -/
theorem ctrlA_step (s : ListboxController) (k : KeyboardEvent)
    (hm : s.ariaMultiSelectable = true) (hne : s.options ≠ [])
    (hnd : (s.options.map fun o => o.id).Nodup)
    (hitems : s.tabindexItems = s.options.map fun o => o.id)
    (hk : k.key = "a" ∨ k.key = "A") (hc : k.ctrlKey = true)
    (ha : k.altKey = false) (hmeta : k.metaKey = false) :
    step s (DomEvent.keydown k) =
      fireChange
        { s with showAllOptions := false,
                 options := s.options.map fun o =>
                   { o with selected := !(s.options.all fun x => x.selected) },
                 shiftStartingItem := some ((s.options.head hne).id) } := by
  have hks : (k.key == "Shift") = false := by rcases hk with h | h <;> simp [h]
  have hka : (k.key == "a" || k.key == "A") = true := by rcases hk with h | h <;> simp [h]
  have hfi : tabFirstItem ({ s with showAllOptions := false } : ListboxController) =
      some ((s.options.head hne).id) := by
    show s.tabindexItems.head? = _
    rw [hitems, List.head?_map, List.head?_eq_head hne]
    rfl
  have hla : tabLastItem ({ s with showAllOptions := false } : ListboxController) =
      some ((s.options.getLast hne).id) := by
    show s.tabindexItems.getLast? = _
    rw [hitems, List.getLast?_map, List.getLast?_eq_getLast s.options hne]
    rfl
  have hums : updateMultiselect ({ s with showAllOptions := false } : ListboxController)
      ((s.options.head hne).id) ((s.options.getLast hne).id) true =
      { s with showAllOptions := false,
               options := s.options.map fun o =>
                 { o with selected := !(s.options.all fun x => x.selected) },
               shiftStartingItem := some ((s.options.head hne).id) } :=
    updateMultiselect_full ({ s with showAllOptions := false } : ListboxController) hm hne hnd
  simp only [step, onOptionKeydown, keydownDispatch, hks, Bool.false_and, Bool.false_eq_true,
    if_false, ha, hmeta, Bool.or_self, hc, if_true]
  rw [hfi, hla]
  simp only [hka, Option.isSome_some, Bool.and_self, if_true]
  rw [hums]
  simp only [keydownTail, jsValueNeq, hm, if_true]

end ListboxController

namespace ListboxController

/-- A multi-select listbox over three options `a`, `b`, `c` after setting
the filter to `b`: the filter re-evaluation rebinds the roving tracker to
the only visible option (id 1). -/
def filteredMultiState : ListboxController :=
  setFilter (mkState [mkOption 0 "a" false, mkOption 1 "b" false, mkOption 2 "c" false] true) "b"

/-- The Ctrl+A keydown event. -/
def ctrlAEvent : KeyboardEvent :=
  { key := "a", ctrlKey := true, altKey := false, metaKey := false, shiftKey := false,
    target := none }

/-- C4 counterexample: Ctrl+A ranges over the TRACKER's first..last items
(the visible options), not the full option list: with only the middle option
visible, Ctrl+A on a fully-unselected non-empty multi-select list selects
only that option, not every option of the full list. -/
theorem c4_cex :
    filteredMultiState.ariaMultiSelectable = true ∧
    filteredMultiState.options ≠ [] ∧
    (filteredMultiState.options.all fun o => o.selected) = false ∧
    ((step filteredMultiState (DomEvent.keydown ctrlAEvent)).options.map fun o => o.selected) =
      [false, true, false] ∧
    ((step filteredMultiState (DomEvent.keydown ctrlAEvent)).options.all fun o => o.selected) =
      false := by decide

/-- C4 amended: in multi-select mode with a non-empty option list whose
roving tracker is bound to the FULL option list (no active filter) and
distinct ids, Ctrl+A selects every option when not every option is selected,
deselects every option when every option is selected, and two consecutive
presses starting from the fully-unselected state return to it. -/
theorem c4_ctrlA_select_all (s : ListboxController) (k : KeyboardEvent)
    (hm : s.ariaMultiSelectable = true) (hne : s.options ≠ [])
    (hnd : (s.options.map fun o => o.id).Nodup)
    (hitems : s.tabindexItems = s.options.map fun o => o.id)
    (hk : k.key = "a" ∨ k.key = "A") (hc : k.ctrlKey = true)
    (ha : k.altKey = false) (hmeta : k.metaKey = false) :
    ((s.options.all fun o => o.selected) = false →
      (step s (DomEvent.keydown k)).options =
        s.options.map fun o => { o with selected := true }) ∧
    ((s.options.all fun o => o.selected) = true →
      (step s (DomEvent.keydown k)).options =
        s.options.map fun o => { o with selected := false }) ∧
    ((s.options.all fun o => !o.selected) = true →
      ((step (step s (DomEvent.keydown k)) (DomEvent.keydown k)).options.all
        fun o => !o.selected) = true) := by
  have hstep := ctrlA_step s k hm hne hnd hitems hk hc ha hmeta
  refine ⟨?_, ?_, ?_⟩
  · intro hall
    rw [hstep]
    simp [fireChange, hall]
  · intro hall
    rw [hstep]
    simp [fireChange, hall]
  · intro hnone
    have hf : (s.options.all fun o => o.selected) = false := by
      obtain ⟨o0, rest, hl⟩ := List.exists_cons_of_ne_nil hne
      rw [hl] at hnone ⊢
      simp only [List.all_cons, Bool.and_eq_true] at hnone
      have h0 : o0.selected = false := by
        cases hsel : o0.selected
        · rfl
        · have hcontra := hnone.1
          rw [hsel] at hcontra
          simp at hcontra
      simp [List.all_cons, h0]
    have hopts : (step s (DomEvent.keydown k)).options =
        s.options.map fun o => { o with selected := true } := by
      rw [hstep]
      simp [fireChange, hf]
    have hm' : (step s (DomEvent.keydown k)).ariaMultiSelectable = true := by
      rw [hstep]
      simpa [fireChange] using hm
    have hne' : (step s (DomEvent.keydown k)).options ≠ [] := by
      rw [hopts]
      intro hmape
      exact hne (List.map_eq_nil_iff.mp hmape)
    have hnd' : ((step s (DomEvent.keydown k)).options.map fun o => o.id).Nodup := by
      rw [hopts, List.map_map]
      exact hnd
    have hitems' : (step s (DomEvent.keydown k)).tabindexItems =
        (step s (DomEvent.keydown k)).options.map fun o => o.id := by
      rw [hopts, List.map_map]
      have hti : (step s (DomEvent.keydown k)).tabindexItems = s.tabindexItems := by
        rw [hstep]
        rfl
      rw [hti, hitems]
      rfl
    have hall' : ((step s (DomEvent.keydown k)).options.all fun x => x.selected) = true := by
      rw [hopts, List.all_map]
      exact List.all_eq_true.mpr fun _ _ => rfl
    have hstep2 := ctrlA_step (step s (DomEvent.keydown k)) k hm' hne' hnd' hitems' hk hc ha hmeta
    rw [hstep2]
    simp only [fireChange, hall', Bool.not_true]
    rw [List.all_map]
    exact List.all_eq_true.mpr fun _ _ => rfl

/-- A fresh multi-select listbox over the color options. -/
def multiColorState : ListboxController := mkState colorOptions true

/-- Witness for C4 amended: Ctrl+A on the fully-unselected color list
selects every option. -/
theorem c4_ctrlA_select_all_witness :
    (step multiColorState (DomEvent.keydown ctrlAEvent)).options =
      multiColorState.options.map fun o => { o with selected := true } :=
  (c4_ctrlA_select_all multiColorState ctrlAEvent (by decide) (by decide) (by decide) rfl
    (Or.inl rfl) rfl rfl rfl).1 (by decide)

end ListboxController

namespace ListboxController

/-- `uadStep` only rewrites the published active-descendant. -/
theorem uadStep_proj (vis : List ListboxOptionElement) (acc : ListboxController)
    (o : ListboxOptionElement) :
    (uadStep vis acc o).options = acc.options ∧
    (uadStep vis acc o).shiftStartingItem = acc.shiftStartingItem ∧
    (uadStep vis acc o).ariaMultiSelectable = acc.ariaMultiSelectable ∧
    (uadStep vis acc o).events = acc.events ∧
    (uadStep vis acc o).tabindexItems = acc.tabindexItems ∧
    (uadStep vis acc o).tabindexActive = acc.tabindexActive := by
  unfold uadStep
  split
  · exact ⟨rfl, rfl, rfl, rfl, rfl, rfl⟩
  · split
    · exact ⟨rfl, rfl, rfl, rfl, rfl, rfl⟩
    · exact ⟨rfl, rfl, rfl, rfl, rfl, rfl⟩

/-- The `uadStep` fold only rewrites the published active-descendant. -/
theorem foldl_uadStep_proj (vis : List ListboxOptionElement) :
    ∀ (l : List ListboxOptionElement) (acc : ListboxController),
    (l.foldl (uadStep vis) acc).options = acc.options ∧
    (l.foldl (uadStep vis) acc).shiftStartingItem = acc.shiftStartingItem ∧
    (l.foldl (uadStep vis) acc).ariaMultiSelectable = acc.ariaMultiSelectable ∧
    (l.foldl (uadStep vis) acc).events = acc.events ∧
    (l.foldl (uadStep vis) acc).tabindexItems = acc.tabindexItems ∧
    (l.foldl (uadStep vis) acc).tabindexActive = acc.tabindexActive := by
  intro l
  induction l with
  | nil => intro acc; exact ⟨rfl, rfl, rfl, rfl, rfl, rfl⟩
  | cons o rest ih =>
    intro acc
    obtain ⟨i1, i2, i3, i4, i5, i6⟩ := ih (uadStep vis acc o)
    obtain ⟨u1, u2, u3, u4, u5, u6⟩ := uadStep_proj vis acc o
    exact ⟨i1.trans u1, i2.trans u2, i3.trans u3, i4.trans u4, i5.trans u5, i6.trans u6⟩

/-- `#updateActiveDescendant` only rewrites the published active-descendant
and the deferred-focus flag. -/
theorem updateActiveDescendant_proj (s : ListboxController) :
    (updateActiveDescendant s).options = s.options ∧
    (updateActiveDescendant s).shiftStartingItem = s.shiftStartingItem ∧
    (updateActiveDescendant s).ariaMultiSelectable = s.ariaMultiSelectable ∧
    (updateActiveDescendant s).events = s.events ∧
    (updateActiveDescendant s).tabindexItems = s.tabindexItems ∧
    (updateActiveDescendant s).tabindexActive = s.tabindexActive := by
  unfold updateActiveDescendant
  obtain ⟨f1, f2, f3, f4, f5, f6⟩ :=
    foldl_uadStep_proj (visibleOptions s) (visibleOptionsEffect s).options (visibleOptionsEffect s)
  exact ⟨f1.trans rfl, f2.trans rfl, f3.trans rfl, f4.trans rfl, f5.trans rfl, f6.trans rfl⟩

/-- `keydownTail` leaves everything but the event log, the tracker pointer
and the DOM focus unchanged. -/
theorem keydownTail_proj (s : ListboxController) (oldFirst : Option Nat)
    (f : Option ListboxOptionElement) :
    (keydownTail s oldFirst f).options = s.options ∧
    (keydownTail s oldFirst f).shiftStartingItem = s.shiftStartingItem ∧
    (keydownTail s oldFirst f).ariaMultiSelectable = s.ariaMultiSelectable ∧
    (keydownTail s oldFirst f).ariaActivedescendant = s.ariaActivedescendant ∧
    (keydownTail s oldFirst f).tabindexItems = s.tabindexItems := by
  unfold keydownTail
  cases f <;> dsimp only <;> split <;> exact ⟨rfl, rfl, rfl, rfl, rfl⟩

/-- A range operation in single-select mode is a no-op. -/
theorem updateMultiselect_not_multi (s : ListboxController) (c r : Nat) (b : Bool)
    (hm : s.ariaMultiSelectable = false) :
    updateMultiselect s c r b = s := by
  unfold updateMultiselect
  simp [multiSelectable, hm]

/-- The anchor after a range operation: the current item in multi-select
mode, untouched otherwise. -/
theorem updateMultiselect_anchor (s : ListboxController) (c r : Nat) (b : Bool) :
    (updateMultiselect s c r b).shiftStartingItem =
      if s.ariaMultiSelectable then some c else s.shiftStartingItem := by
  unfold updateMultiselect multiSelectable
  split <;> simp_all

/-- A range operation never touches the event log, mode, or tracker. -/
theorem updateMultiselect_proj (s : ListboxController) (c r : Nat) (b : Bool) :
    (updateMultiselect s c r b).ariaMultiSelectable = s.ariaMultiSelectable ∧
    (updateMultiselect s c r b).events = s.events ∧
    (updateMultiselect s c r b).ariaActivedescendant = s.ariaActivedescendant ∧
    (updateMultiselect s c r b).tabindexItems = s.tabindexItems := by
  unfold updateMultiselect
  split <;> exact ⟨rfl, rfl, rfl, rfl⟩

/-- `#updateSingleselect` never touches the anchor, mode or tracker. -/
theorem updateSingleselect_proj (s : ListboxController) :
    (updateSingleselect s).shiftStartingItem = s.shiftStartingItem ∧
    (updateSingleselect s).ariaMultiSelectable = s.ariaMultiSelectable ∧
    (updateSingleselect s).ariaActivedescendant = s.ariaActivedescendant ∧
    (updateSingleselect s).tabindexItems = s.tabindexItems := by
  unfold updateSingleselect
  split <;> exact ⟨rfl, rfl, rfl, rfl⟩

/-- `setSelectedRange` preserves the id sequence. -/
theorem setSelectedRange_map_id (t : Bool) :
    ∀ (l : List ListboxOptionElement) (i lo hi : Nat),
    ((setSelectedRange l i lo hi t).map fun o => o.id) = l.map fun o => o.id := by
  intro l
  induction l with
  | nil => intro i lo hi; rfl
  | cons o rest ih =>
    intro i lo hi
    simp only [setSelectedRange, List.map_cons, ih]
    split <;> rfl

/-- A range operation preserves the id sequence of the option list. -/
theorem updateMultiselect_map_id (s : ListboxController) (c r : Nat) (b : Bool) :
    ((updateMultiselect s c r b).options.map fun o => o.id) = s.options.map fun o => o.id := by
  unfold updateMultiselect
  split
  · dsimp only
    exact setSelectedRange_map_id _ s.options 0 _ _
  · rfl

end ListboxController

namespace ListboxController

/-- At most one option of the full list is selected. -/
def atMostOneSelected (s : ListboxController) : Prop :=
  (selectedOptions s).length ≤ 1

/-- Rewriting every option's `selected` flag by a predicate: the number of
selected options afterwards is the predicate's count. -/
theorem length_filter_selected_set (l : List ListboxOptionElement)
    (p : ListboxOptionElement → Bool) :
    ((l.map fun o => { o with selected := p o }).filter fun o => o.selected).length =
      l.countP p := by
  rw [List.filter_map, List.length_map, ← List.countP_eq_length_filter]
  rfl

/-- With distinct ids, at most one option's id equals a given value. -/
theorem countP_id_beq (l : List ListboxOptionElement)
    (hnd : (l.map fun o => o.id).Nodup) (x : Option Nat) :
    l.countP (fun o => some o.id == x) ≤ 1 := by
  cases x with
  | none => simp
  | some t =>
    have hfun : (fun o : ListboxOptionElement => some o.id == some t) =
        (fun o : ListboxOptionElement => o.id == t) := by
      funext o
      simp
    rw [hfun]
    have hcnt : l.countP (fun o : ListboxOptionElement => o.id == t) =
        (l.map fun o => o.id).count t := by
      rw [List.count, List.countP_map]
      rfl
    rw [hcnt]
    exact List.nodup_iff_count_le_one.mp hnd t

/-- Symmetric form: `x == some id`. -/
theorem countP_beq_id (l : List ListboxOptionElement)
    (hnd : (l.map fun o => o.id).Nodup) (x : Option Nat) :
    l.countP (fun o => x == some o.id) ≤ 1 := by
  have hfun : (fun o : ListboxOptionElement => x == some o.id) =
      (fun o : ListboxOptionElement => some o.id == x) := by
    funext o
    rw [Bool.eq_iff_iff]
    constructor
    · intro h; exact (beq_iff_eq.mpr (beq_iff_eq.mp h).symm)
    · intro h; exact (beq_iff_eq.mpr (beq_iff_eq.mp h).symm)
  rw [hfun]
  exact countP_id_beq l hnd x

end ListboxController

namespace ListboxController

@[simp] theorem fireChange_options (s : ListboxController) :
    (fireChange s).options = s.options := rfl
@[simp] theorem fireChange_multi (s : ListboxController) :
    (fireChange s).ariaMultiSelectable = s.ariaMultiSelectable := rfl
@[simp] theorem fireChange_anchor (s : ListboxController) :
    (fireChange s).shiftStartingItem = s.shiftStartingItem := rfl
@[simp] theorem fireChange_aad (s : ListboxController) :
    (fireChange s).ariaActivedescendant = s.ariaActivedescendant := rfl
@[simp] theorem fireInput_options (s : ListboxController) :
    (fireInput s).options = s.options := rfl
@[simp] theorem fireInput_multi (s : ListboxController) :
    (fireInput s).ariaMultiSelectable = s.ariaMultiSelectable := rfl
@[simp] theorem tabFocusOnItem_options (s : ListboxController) (i : Option Nat) :
    (tabFocusOnItem s i).options = s.options := rfl
@[simp] theorem tabFocusOnItem_multi (s : ListboxController) (i : Option Nat) :
    (tabFocusOnItem s i).ariaMultiSelectable = s.ariaMultiSelectable := rfl
@[simp] theorem tabFocusOnItem_anchor (s : ListboxController) (i : Option Nat) :
    (tabFocusOnItem s i).shiftStartingItem = s.shiftStartingItem := rfl
@[simp] theorem tabUpdateActiveItem_options (s : ListboxController) (i : Option Nat) :
    (tabUpdateActiveItem s i).options = s.options := rfl
@[simp] theorem tabUpdateActiveItem_multi (s : ListboxController) (i : Option Nat) :
    (tabUpdateActiveItem s i).ariaMultiSelectable = s.ariaMultiSelectable := rfl
@[simp] theorem keydownTail_options (s : ListboxController) (o : Option Nat)
    (f : Option ListboxOptionElement) : (keydownTail s o f).options = s.options :=
  (keydownTail_proj s o f).1
@[simp] theorem keydownTail_anchor (s : ListboxController) (o : Option Nat)
    (f : Option ListboxOptionElement) :
    (keydownTail s o f).shiftStartingItem = s.shiftStartingItem :=
  (keydownTail_proj s o f).2.1
@[simp] theorem keydownTail_multi (s : ListboxController) (o : Option Nat)
    (f : Option ListboxOptionElement) :
    (keydownTail s o f).ariaMultiSelectable = s.ariaMultiSelectable :=
  (keydownTail_proj s o f).2.2.1
@[simp] theorem keydownTail_aad (s : ListboxController) (o : Option Nat)
    (f : Option ListboxOptionElement) :
    (keydownTail s o f).ariaActivedescendant = s.ariaActivedescendant :=
  (keydownTail_proj s o f).2.2.2.1
@[simp] theorem updateActiveDescendant_options (s : ListboxController) :
    (updateActiveDescendant s).options = s.options := (updateActiveDescendant_proj s).1
@[simp] theorem updateActiveDescendant_anchor (s : ListboxController) :
    (updateActiveDescendant s).shiftStartingItem = s.shiftStartingItem :=
  (updateActiveDescendant_proj s).2.1
@[simp] theorem updateActiveDescendant_multi (s : ListboxController) :
    (updateActiveDescendant s).ariaMultiSelectable = s.ariaMultiSelectable :=
  (updateActiveDescendant_proj s).2.2.1
@[simp] theorem updateMultiselect_multi (s : ListboxController) (c r : Nat) (b : Bool) :
    (updateMultiselect s c r b).ariaMultiSelectable = s.ariaMultiSelectable :=
  (updateMultiselect_proj s c r b).1
@[simp] theorem updateSingleselect_anchor (s : ListboxController) :
    (updateSingleselect s).shiftStartingItem = s.shiftStartingItem :=
  (updateSingleselect_proj s).1
@[simp] theorem updateSingleselect_multi (s : ListboxController) :
    (updateSingleselect s).ariaMultiSelectable = s.ariaMultiSelectable :=
  (updateSingleselect_proj s).2.1

/-- Every DOM event handler leaves the multi-selectable flag unchanged. -/
theorem step_multi (s : ListboxController) (e : DomEvent) :
    (step s e).ariaMultiSelectable = s.ariaMultiSelectable := by
  cases e with
  | keydown k =>
    simp only [step, onOptionKeydown, keydownDispatch]
    repeat' split
    all_goals simp
  | keyup k =>
    simp only [step, onOptionKeyup]
    repeat' split
    all_goals simp
  | optionfocus t =>
    simp only [step, onOptionFocus]
    repeat' split
    all_goals simp
  | click e =>
    simp only [step, onOptionClick]
    repeat' split
    all_goals simp

end ListboxController

namespace ListboxController

@[simp] theorem map_id_set_selected_beq (l : List ListboxOptionElement) (x : Option Nat) :
    ((l.map fun o => { o with selected := some o.id == x }).map fun o => o.id) =
      l.map fun o => o.id := by
  rw [List.map_map]
  rfl

@[simp] theorem map_id_toggle (l : List ListboxOptionElement) (t : Nat) :
    ((l.map fun o => if o.id == t then { o with selected := !o.selected } else o).map
      fun o => o.id) = l.map fun o => o.id := by
  rw [List.map_map]
  apply List.map_congr_left
  intro o _
  simp only [Function.comp]
  split <;> rfl

@[simp] theorem map_id_toggle_opt (l : List ListboxOptionElement) (x : Option Nat) :
    ((l.map fun o => if some o.id == x then { o with selected := !o.selected } else o).map
      fun o => o.id) = l.map fun o => o.id := by
  rw [List.map_map]
  apply List.map_congr_left
  intro o _
  simp only [Function.comp]
  split <;> rfl

/-- In single-select mode, a keyup is a no-op. -/
theorem onOptionKeyup_not_multi (s : ListboxController) (k : KeyboardEvent)
    (hm : s.ariaMultiSelectable = false) : onOptionKeyup s k = s := by
  unfold onOptionKeyup multiSelectable
  simp [hm]

/-- An option-focus event never changes the option list. -/
theorem onOptionFocus_options (s : ListboxController) (t : Option Nat) :
    (onOptionFocus s t).options = s.options := by
  unfold onOptionFocus
  simp only [updateActiveDescendant_options]
  split <;> rfl

/-- An option-focus event never changes the anchor. -/
theorem onOptionFocus_anchor (s : ListboxController) (t : Option Nat) :
    (onOptionFocus s t).shiftStartingItem = s.shiftStartingItem := by
  unfold onOptionFocus
  simp only [updateActiveDescendant_anchor]
  split <;> rfl

/-- `#updateSingleselect` in single-select mode mirrors the
active-descendant. -/
theorem updateSingleselect_options_single (s : ListboxController)
    (hm : s.ariaMultiSelectable = false) :
    (updateSingleselect s).options =
      s.options.map fun o => { o with selected := some o.id == s.ariaActivedescendant } := by
  unfold updateSingleselect multiSelectable
  simp [hm]

/-- In single-select mode, a click rewrites the selection to "equals the
click target" and changes nothing else about the option list. -/
theorem onOptionClick_single_options (s : ListboxController) (e : MouseEvent)
    (hm : s.ariaMultiSelectable = false) :
    (onOptionClick s e).options =
      s.options.map fun o => { o with selected := some o.id == e.target } := by
  unfold onOptionClick multiSelectable
  simp only [hm, Bool.false_eq_true, if_false]
  repeat' split
  all_goals simp

/-- The Ctrl+A dispatch is a no-op in single-select mode. -/
theorem ctrlA_match_not_multi (s' : ListboxController) (hm' : s'.ariaMultiSelectable = false) :
    (match tabFirstItem s', tabLastItem s' with
      | some f, some l => updateMultiselect s' f l true
      | _, _ => s') = s' := by
  cases tabFirstItem s' <;> cases tabLastItem s'
  · rfl
  · rfl
  · rfl
  · exact updateMultiselect_not_multi _ _ _ _ hm'

/-- In single-select mode, a keydown either leaves the option list unchanged
or (Enter/Space commit) rewrites the selection to mirror the published
active-descendant. -/
theorem onOptionKeydown_single_options (s : ListboxController) (k : KeyboardEvent)
    (hm : s.ariaMultiSelectable = false) :
    (onOptionKeydown s k).options = s.options ∨
    (onOptionKeydown s k).options =
      s.options.map fun o => { o with selected := some o.id == s.ariaActivedescendant } := by
  have hm1 : ({ s with showAllOptions := false } : ListboxController).ariaMultiSelectable = false :=
    hm
  unfold onOptionKeydown keydownDispatch
  simp only [multiSelectable, hm, Bool.and_false, Bool.false_eq_true, if_false]
  split
  · exact Or.inl rfl
  · split
    · split
      · left
        rw [keydownTail_options, ctrlA_match_not_multi _ rfl]
      · exact Or.inl rfl
    · split
      · left
        exact keydownTail_options _ _ _
      · split
        · cases k.target with
          | some t =>
            right
            rw [keydownTail_options, updateSingleselect_options_single _ rfl]
          | none =>
            left
            exact keydownTail_options _ _ _
        · left
          exact keydownTail_options _ _ _

end ListboxController

namespace ListboxController

@[simp] theorem updateSingleselect_aad (s : ListboxController) :
    (updateSingleselect s).ariaActivedescendant = s.ariaActivedescendant :=
  (updateSingleselect_proj s).2.2.1

/-- In single-select mode every event preserves the id sequence of the
option list. -/
theorem step_map_id_single (s : ListboxController) (e : DomEvent)
    (hm : s.ariaMultiSelectable = false) :
    ((step s e).options.map fun o => o.id) = s.options.map fun o => o.id := by
  cases e with
  | keydown k =>
    rcases onOptionKeydown_single_options s k hm with h | h
    · simp only [step]
      rw [h]
    · simp only [step]
      rw [h]
      simp
  | keyup k =>
    simp only [step]
    rw [onOptionKeyup_not_multi s k hm]
  | optionfocus t =>
    simp only [step]
    rw [onOptionFocus_options]
  | click e =>
    simp only [step]
    rw [onOptionClick_single_options s e hm]
    simp

/-- In single-select mode with distinct ids, every event preserves
"at most one option selected". -/
theorem step_atMostOne (s : ListboxController) (e : DomEvent)
    (hm : s.ariaMultiSelectable = false)
    (hnd : (s.options.map fun o => o.id).Nodup)
    (h1 : atMostOneSelected s) : atMostOneSelected (step s e) := by
  cases e with
  | keydown k =>
    rcases onOptionKeydown_single_options s k hm with h | h
    · unfold atMostOneSelected selectedOptions at h1 ⊢
      simp only [step]
      rw [h]
      exact h1
    · unfold atMostOneSelected selectedOptions
      simp only [step]
      rw [h, length_filter_selected_set]
      exact countP_id_beq s.options hnd _
  | keyup k =>
    unfold atMostOneSelected selectedOptions at h1 ⊢
    simp only [step]
    rw [onOptionKeyup_not_multi s k hm]
    exact h1
  | optionfocus t =>
    unfold atMostOneSelected selectedOptions at h1 ⊢
    simp only [step]
    rw [onOptionFocus_options]
    exact h1
  | click e =>
    unfold atMostOneSelected selectedOptions
    simp only [step]
    rw [onOptionClick_single_options s e hm, length_filter_selected_set]
    exact countP_id_beq s.options hnd _

/-- Invariant carrier for event sequences in single-select mode. -/
theorem run_single_invariant (es : List DomEvent) : ∀ (s : ListboxController),
    s.ariaMultiSelectable = false → (s.options.map fun o => o.id).Nodup →
    atMostOneSelected s →
    atMostOneSelected (run s es) ∧ (run s es).ariaMultiSelectable = false ∧
    ((run s es).options.map fun o => o.id) = s.options.map fun o => o.id := by
  induction es with
  | nil => intro s hm _ h1; exact ⟨h1, hm, rfl⟩
  | cons e rest ih =>
    intro s hm hnd h1
    have hm' : (step s e).ariaMultiSelectable = false := (step_multi s e).trans hm
    have hid := step_map_id_single s e hm
    have hnd' : ((step s e).options.map fun o => o.id).Nodup := by
      rw [hid]
      exact hnd
    have h1' := step_atMostOne s e hm hnd h1
    obtain ⟨r1, r2, r3⟩ := ih (step s e) hm' hnd' h1'
    exact ⟨r1, r2, r3.trans hid⟩

/-- An Enter/Space keydown with an element target in single-select mode
commits the active-descendant as the sole selection. -/
theorem keydown_commit_single (s : ListboxController) (k : KeyboardEvent) (t : Nat)
    (hm : s.ariaMultiSelectable = false)
    (hkey : k.key = "Enter" ∨ k.key = " ") (halt : k.altKey = false)
    (hmeta : k.metaKey = false) (hctrl : k.ctrlKey = false) (htgt : k.target = some t) :
    (onOptionKeydown s k).options =
      s.options.map (fun o => { o with selected := some o.id == s.ariaActivedescendant }) ∧
    (onOptionKeydown s k).ariaActivedescendant = s.ariaActivedescendant := by
  have hks : (k.key == "Shift") = false := by rcases hkey with h | h <;> simp [h]
  have hw : isWordChar k.key = false := by rcases hkey with h | h <;> rw [h] <;> decide
  have hke : (k.key == "Enter" || k.key == " ") = true := by rcases hkey with h | h <;> simp [h]
  unfold onOptionKeydown keydownDispatch
  simp only [multiSelectable, hm, hks, Bool.false_and, Bool.and_false, Bool.false_eq_true,
    if_false, halt, hmeta, Bool.or_self, hctrl, hw, hke, if_true, htgt]
  constructor
  · rw [keydownTail_options, updateSingleselect_options_single _ rfl]
  · rw [keydownTail_aad, updateSingleselect_aad]

end ListboxController

namespace ListboxController

/-- A fresh single-select listbox over two options `a` (id 0), `b` (id 1). -/
def twoOptionState : ListboxController :=
  mkState [mkOption 0 "a" false, mkOption 1 "b" false] false

/-- The state after clicking option 0 and then focusing option 1. -/
def clickThenFocusState : ListboxController :=
  run twoOptionState
    [DomEvent.click { target := some 0, shiftKey := false }, DomEvent.optionfocus (some 1)]

/-- C2 counterexample: in single-select mode, after clicking option 0 (which
selects it) and then focusing option 1, the selected option (id 0) does NOT
equal the current active-descendant (id 1): an option-focus event moves the
active-descendant without touching the selection. -/
theorem c2_cex :
    ((selectedOptions clickThenFocusState).map fun o => o.id) = [0] ∧
    ((activeItem clickThenFocusState).map fun o => o.id) = some 1 ∧
    ((selectedOptions clickThenFocusState).map fun o => o.id) ≠ [1] := by decide

/-- C2 amended: in single-select mode with distinct option ids, every
sequence of click / option-focus / keyboard events preserves "at most one
option is selected"; and immediately after an Enter/Space commit targeting
an element the selected options are exactly those whose id equals the
current active-descendant (which still holds at most one).  The selected
option need not equal the active-descendant at other observation points
(see the counterexample: focus moves the active-descendant without moving
the selection). -/
theorem c2_single_select (s : ListboxController) (es : List DomEvent)
    (k : KeyboardEvent) (t : Nat)
    (hm : s.ariaMultiSelectable = false)
    (hnd : (s.options.map fun o => o.id).Nodup)
    (h1 : atMostOneSelected s)
    (hkey : k.key = "Enter" ∨ k.key = " ") (halt : k.altKey = false)
    (hmeta : k.metaKey = false) (hctrl : k.ctrlKey = false) (htgt : k.target = some t) :
    atMostOneSelected (run s es) ∧
    (∀ o ∈ (step (run s es) (DomEvent.keydown k)).options,
      o.selected = (some o.id == (step (run s es) (DomEvent.keydown k)).ariaActivedescendant)) ∧
    atMostOneSelected (step (run s es) (DomEvent.keydown k)) := by
  obtain ⟨r1, r2, r3⟩ := run_single_invariant es s hm hnd h1
  have hnd' : ((run s es).options.map fun o => o.id).Nodup := by
    rw [r3]
    exact hnd
  obtain ⟨hc1, hc2⟩ := keydown_commit_single (run s es) k t r2 hkey halt hmeta hctrl htgt
  refine ⟨r1, ?_, ?_⟩
  · intro o ho
    simp only [step] at ho ⊢
    rw [hc1] at ho
    rw [hc2]
    obtain ⟨o0, _, rfl⟩ := List.mem_map.mp ho
    rfl
  · unfold atMostOneSelected selectedOptions
    simp only [step]
    rw [hc1, length_filter_selected_set]
    exact countP_id_beq _ hnd' _

/-- Witness for C2 amended: the click-then-focus run keeps at most one
option selected, and an Enter commit afterwards mirrors the
active-descendant. -/
theorem c2_single_select_witness :
    atMostOneSelected
      (run twoOptionState
        [DomEvent.click { target := some 0, shiftKey := false },
         DomEvent.optionfocus (some 1)]) ∧
    atMostOneSelected
      (step
        (run twoOptionState
          [DomEvent.click { target := some 0, shiftKey := false },
           DomEvent.optionfocus (some 1)])
        (DomEvent.keydown
          { key := "Enter", ctrlKey := false, altKey := false, metaKey := false,
            shiftKey := false, target := some 1 })) := by
  have h := c2_single_select twoOptionState
    [DomEvent.click { target := some 0, shiftKey := false }, DomEvent.optionfocus (some 1)]
    { key := "Enter", ctrlKey := false, altKey := false, metaKey := false,
      shiftKey := false, target := some 1 } 1
    rfl (by decide) (by unfold atMostOneSelected selectedOptions; decide)
    (Or.inl rfl) rfl rfl rfl rfl
  exact ⟨h.1, h.2.2⟩

end ListboxController

namespace ListboxController

/-- A range operation never clears a present anchor. -/
theorem updateMultiselect_anchor_ne (s : ListboxController) (c r : Nat) (b : Bool)
    (hne : s.shiftStartingItem ≠ none) :
    (updateMultiselect s c r b).shiftStartingItem ≠ none := by
  rw [updateMultiselect_anchor]
  split <;> simp_all

/-- The keydown dispatch never clears a present anchor. -/
theorem keydownDispatch_anchor_ne (s2 : ListboxController) (e : KeyboardEvent)
    (hne : s2.shiftStartingItem ≠ none) :
    (keydownDispatch s2 e).shiftStartingItem ≠ none := by
  unfold keydownDispatch
  repeat' split
  all_goals simp only [keydownTail_anchor, updateSingleselect_anchor]
  all_goals
    first
    | exact hne
    | exact updateMultiselect_anchor_ne _ _ _ _ hne

/-- No keydown clears a present anchor: a Shift keydown overwrites it with
the (present) active item. -/
theorem onOptionKeydown_anchor_ne (s : ListboxController) (k : KeyboardEvent)
    (hne : s.shiftStartingItem ≠ none) (hAct : (activeItem s).isSome = true) :
    (onOptionKeydown s k).shiftStartingItem ≠ none := by
  obtain ⟨a0, ha0⟩ := Option.isSome_iff_exists.mp hAct
  simp only [onOptionKeydown]
  split
  · apply keydownDispatch_anchor_ne
    show (activeItem ({ s with showAllOptions := false } : ListboxController)).map
      (fun o => o.id) ≠ none
    rw [show activeItem ({ s with showAllOptions := false } : ListboxController) = some a0
      from ha0]
    simp
  · apply keydownDispatch_anchor_ne
    exact hne

/-- No click clears a present anchor. -/
theorem onOptionClick_anchor_ne (s : ListboxController) (e : MouseEvent)
    (hne : s.shiftStartingItem ≠ none) :
    (onOptionClick s e).shiftStartingItem ≠ none := by
  have h2 : ∀ (x : ListboxController), x.shiftStartingItem ≠ none →
      (if jsValueNeq (firstSelectedId s) x = true then fireChange x else x).shiftStartingItem ≠
        none := by
    intro x hx
    split <;> simpa using hx
  have h3 : ∀ (x : ListboxController), x.shiftStartingItem ≠ none →
      ((if (e.target != x.tabindexActive) = true then
        updateActiveDescendant (tabFocusOnItem x e.target) else x)).shiftStartingItem ≠ none := by
    intro x hx
    split
    · simpa using hx
    · exact hx
  simp only [onOptionClick]
  apply h2
  apply h3
  repeat' split
  all_goals try simp only [fireChange_anchor]
  all_goals
    first
    | exact hne
    | exact updateMultiselect_anchor_ne _ _ _ _ hne

end ListboxController

namespace ListboxController

/-- C10: shift-anchor discipline of the coordinator, in multi-select mode
with a present active item.  (a) The anchor is set to `none` only by a keyup
of the Shift key (with `shiftKey` reported held); no keydown, click or
option-focus event clears it.  (b) A keyup range gesture while Shift is held
takes its reference endpoint from the stored anchor — which part (c) shows
is the PREVIOUS range application's target, not the option that was active
when Shift was first pressed — and reassigns the anchor to the gesture's
target (clearing it afterwards only when the released key is Shift itself).
(c) Every application of the multi-select range operation reassigns the
anchor to its current (target) item. -/
theorem c10_shift_anchor (s : ListboxController) (e : DomEvent)
    (hm : s.ariaMultiSelectable = true)
    (hAct : (activeItem s).isSome = true) :
    ((s.shiftStartingItem ≠ none ∧ (step s e).shiftStartingItem = none) →
      ∃ k, e = DomEvent.keyup k ∧ k.key = "Shift" ∧ k.shiftKey = true) ∧
    (∀ (k : KeyboardEvent) (a t : Nat), e = DomEvent.keyup k → k.shiftKey = true →
      k.target = some t → s.shiftStartingItem = some a →
      (step s e).options = (updateMultiselect s t a false).options ∧
      (step s e).shiftStartingItem = (if k.key == "Shift" then none else some t)) ∧
    (∀ (c r : Nat) (b : Bool), (updateMultiselect s c r b).shiftStartingItem = some c) := by
  refine ⟨?_, ?_, ?_⟩
  · rintro ⟨hne, h0⟩
    cases e with
    | keydown k =>
      exact absurd h0 (onOptionKeydown_anchor_ne s k hne hAct)
    | keyup k =>
      simp only [step] at h0
      unfold onOptionKeyup at h0
      by_cases hsk : (k.shiftKey && multiSelectable s) = true
      · rw [if_pos hsk] at h0
        by_cases hkk : (k.key == "Shift") = true
        · rw [Bool.and_eq_true] at hsk
          exact ⟨k, rfl, eq_of_beq hkk, hsk.1⟩
        · exfalso
          rw [if_neg hkk] at h0
          rcases hanch : s.shiftStartingItem with _ | a
          · exact hne hanch
          · rw [hanch] at h0
            rcases htg : k.target with _ | t
            · rw [htg] at h0
              exact hne h0
            · rw [htg] at h0
              rw [show (match (some a : Option Nat), (some t : Option Nat) with
                | some a2, some t2 => fireChange (updateMultiselect s t2 a2 false)
                | _, _ => s) = fireChange (updateMultiselect s t a false) from rfl] at h0
              rw [fireChange_anchor, updateMultiselect_anchor] at h0
              rw [hm] at h0
              simp at h0
      · rw [if_neg hsk] at h0
        exact absurd h0 hne
    | optionfocus t =>
      simp only [step] at h0
      rw [onOptionFocus_anchor] at h0
      exact absurd h0 hne
    | click me =>
      exact absurd h0 (onOptionClick_anchor_ne s me hne)
  · intro k a t he hsk htg hanch
    subst he
    simp only [step]
    unfold onOptionKeyup
    have hg : (k.shiftKey && multiSelectable s) = true := by
      simp [hsk, multiSelectable, hm]
    rw [if_pos hg, hanch, htg]
    constructor
    · by_cases hkk : (k.key == "Shift") = true
      · rw [if_pos hkk]
        rfl
      · rw [if_neg hkk]
        rfl
    · by_cases hkk : (k.key == "Shift") = true
      · rw [if_pos hkk, if_pos hkk]
      · rw [if_neg hkk, if_neg hkk]
        rw [fireChange_anchor, updateMultiselect_anchor, hm]
        rfl
  · intro c r b
    rw [updateMultiselect_anchor, hm]
    rfl

/-- Witness for C10 at a concrete multi-select state with anchor 0: a
Shift-held keyup targeting option 2 reassigns the anchor to 2 and ranges
between the stored anchor 0 and the target. -/
theorem c10_shift_anchor_witness :
    (step { mkState [mkOption 0 "a" false, mkOption 1 "b" false, mkOption 2 "c" false] true with
        shiftStartingItem := some 0 }
      (DomEvent.keyup
        { key := "ArrowDown", ctrlKey := false, altKey := false, metaKey := false,
          shiftKey := true, target := some 2 })).shiftStartingItem = some 2 := by
  have h := (c10_shift_anchor
    { mkState [mkOption 0 "a" false, mkOption 1 "b" false, mkOption 2 "c" false] true with
        shiftStartingItem := some 0 }
    (DomEvent.keyup
      { key := "ArrowDown", ctrlKey := false, altKey := false, metaKey := false,
        shiftKey := true, target := some 2 })
    rfl (by decide)).2.1
    { key := "ArrowDown", ctrlKey := false, altKey := false, metaKey := false,
      shiftKey := true, target := some 2 } 0 2 rfl rfl rfl rfl
  exact h.2.trans (by decide)

end ListboxController
